import Mathlib

/-!
Verification of the hapi continuation control loop.

Shallow embedding of:
  - `src/cli/src/claude/utils/smartContinue.ts`
    (`SmartContinueConfig`, `DEFAULT_SMART_CONTINUE`, `detectProvider`,
     `loadCheckpointConfig`, `extractAssistantText`, `assessTaskCompletion`)
  - `src/cli/src/claude/claudeRemote.ts`
    (the rolling assistant-text buffer, the turn-result continuation policy,
     and the try/catch/finally exit discipline of `claudeRemote`).

JavaScript strings are modelled by Lean `String`; the helpers below mirror
the JS string primitives the source uses (`||` on strings, `.trim()`,
`.toUpperCase()`, `.startsWith()`, `.includes()`) over the character list of
the string so that every definition kernel-evaluates on concrete inputs.
`process.env.X` is modelled by a record of strings where the empty string
stands for an unset variable, which is equivalent under JS truthiness since
every use in the source is `process.env.X || fallback` or `if (apiKey)`.
Network calls and the file system are external effects; they enter the
embedding as explicit oracle arguments (`CallResult`, `CheckpointFs`).
-/

namespace Hapi

/-- ASCII whitespace, as trimmed by `String.prototype.trim` on the inputs
    that occur here (checkpoint-id files). -/
def isWs (c : Char) : Bool := c == ' ' || c == '\t' || c == '\n' || c == '\r'

/-- JS `s.trim()`. -/
def strTrim (s : String) : String :=
  ⟨((s.data.dropWhile isWs).reverse.dropWhile isWs).reverse⟩

/-- JS `s.toUpperCase()` (ASCII case mapping). -/
def strUpper (s : String) : String := ⟨s.data.map Char.toUpper⟩

/-- JS `s.startsWith(p)`. -/
def strStarts (s p : String) : Bool := s.data.take p.data.length == p.data

/-- JS `s.includes(p)`: `p` occurs as a contiguous substring of `s`. -/
def strIncludes (s p : String) : Bool :=
  (List.range (s.data.length + 1)).any (fun i => (s.data.drop i).take p.data.length == p.data)

/-- JS `a || b` on strings: the empty string is falsy. -/
def jsOr (a b : String) : String := if a = "" then b else a

/-- JS string truthiness: non-empty. -/
def jsTruthy (a : String) : Bool := a != ""

/-- `SmartContinueConfig` from smartContinue.ts. `provider?` is an optional
    string field (its runtime value comes from unvalidated JSON). -/
structure SmartContinueConfig where
  enabled : Bool
  model : String
  maxRetries : Nat
  bufferSize : Nat
  completionMarker : String
  timeoutMs : Nat
  continueMessage : String
  provider : Option String
  deriving Repr, DecidableEq

/-- `DEFAULT_SMART_CONTINUE` from smartContinue.ts. -/
def DEFAULT_SMART_CONTINUE : SmartContinueConfig where
  enabled := true
  model := "claude-haiku-4-5-20251001"
  maxRetries := 2
  bufferSize := 5
  completionMarker := "[CHECKPOINT_COMPLETE]"
  timeoutMs := 8000
  continueMessage := "好的，请你继续来写。你在完成任务之前停下了，请从你停止的地方继续。"
  provider := none

/-- `DEFAULT_MODELS` from smartContinue.ts, as a function of the provider
    name. -/
def DEFAULT_MODELS : String → String
  | "anthropic" => "claude-haiku-4-5-20251001"
  | "openai" => "gpt-4o-mini"
  | "gemini" => "gemini-2.0-flash"
  | _ => ""

/-- The model-name family each provider's auto-detect branch recognizes
    (`config.model.startsWith(...)` in smartContinue.ts): `claude*` for
    anthropic, `gpt*` for openai, `gemini*` for gemini. -/
def modelFamilyOf : String → String
  | "anthropic" => "claude"
  | "openai" => "gpt"
  | "gemini" => "gemini"
  | _ => ""

/-- `ProviderConfig` from smartContinue.ts. -/
structure ProviderConfig where
  provider : String
  apiKey : String
  baseUrl : String
  model : String
  deriving Repr, DecidableEq

/-- The credential environment variables read by `detectProvider`. The empty
    string models an unset variable. -/
structure Env where
  ANTHROPIC_AUTH_TOKEN : String
  ANTHROPIC_API_KEY : String
  ANTHROPIC_BASE_URL : String
  OPENAI_API_KEY : String
  OPENAI_BASE_URL : String
  GEMINI_API_KEY : String
  GOOGLE_API_KEY : String
  deriving Repr, DecidableEq

/-- `process.env.ANTHROPIC_AUTH_TOKEN || process.env.ANTHROPIC_API_KEY || ''`. -/
def anthropicKeyOf (e : Env) : String := jsOr e.ANTHROPIC_AUTH_TOKEN e.ANTHROPIC_API_KEY

/-- `process.env.OPENAI_API_KEY || ''`. -/
def openaiKeyOf (e : Env) : String := e.OPENAI_API_KEY

/-- `process.env.GEMINI_API_KEY || process.env.GOOGLE_API_KEY || ''`. -/
def geminiKeyOf (e : Env) : String := jsOr e.GEMINI_API_KEY e.GOOGLE_API_KEY

/-- The auto-detect half of `detectProvider` (smartContinue.ts, the code
    after the three explicit-provider blocks): probe anthropic, then openai,
    then gemini; honor `config.model` only when it carries the chosen
    provider's name prefix. -/
def autoDetect (config : SmartContinueConfig) (e : Env) : Option ProviderConfig :=
  if jsTruthy (anthropicKeyOf e) then
    some { provider := "anthropic"
           apiKey := anthropicKeyOf e
           baseUrl := jsOr e.ANTHROPIC_BASE_URL "https://api.anthropic.com"
           model := if strStarts config.model "claude" then config.model
                    else DEFAULT_MODELS "anthropic" }
  else if jsTruthy (openaiKeyOf e) then
    some { provider := "openai"
           apiKey := openaiKeyOf e
           baseUrl := jsOr e.OPENAI_BASE_URL "https://api.openai.com"
           model := if strStarts config.model "gpt" then config.model
                    else DEFAULT_MODELS "openai" }
  else if jsTruthy (geminiKeyOf e) then
    some { provider := "gemini"
           apiKey := geminiKeyOf e
           baseUrl := "https://generativelanguage.googleapis.com"
           model := if strStarts config.model "gemini" then config.model
                    else DEFAULT_MODELS "gemini" }
  else none

/-- `detectProvider` from smartContinue.ts. Each explicit-provider block
    returns only when that provider's credential is non-empty; otherwise
    control falls through, reaching the auto-detect sequence. -/
def detectProvider (config : SmartContinueConfig) (e : Env) : Option ProviderConfig :=
  if config.provider = some "anthropic" ∧ jsTruthy (anthropicKeyOf e) then
    some { provider := "anthropic"
           apiKey := anthropicKeyOf e
           baseUrl := jsOr e.ANTHROPIC_BASE_URL "https://api.anthropic.com"
           model := jsOr config.model (DEFAULT_MODELS "anthropic") }
  else if config.provider = some "openai" ∧ jsTruthy (openaiKeyOf e) then
    some { provider := "openai"
           apiKey := openaiKeyOf e
           baseUrl := jsOr e.OPENAI_BASE_URL "https://api.openai.com"
           model := jsOr config.model (DEFAULT_MODELS "openai") }
  else if config.provider = some "gemini" ∧ jsTruthy (geminiKeyOf e) then
    some { provider := "gemini"
           apiKey := geminiKeyOf e
           baseUrl := "https://generativelanguage.googleapis.com"
           model := jsOr config.model (DEFAULT_MODELS "gemini") }
  else autoDetect config e

/-- Outcome of one provider HTTP call (`callAnthropic` / `callOpenAI` /
    `callGemini`). `failure` covers every thrown error: timeout
    (`AbortSignal.timeout`), a non-ok HTTP status, a fetch/JSON error.
    `success o` is a 2xx reply whose extracted text field is `o` (`none`
    when the optional field path is absent). This is the oracle input that
    stands for the network. -/
inductive CallResult where
  | failure
  | success (textField : Option String)
  deriving Repr, DecidableEq

/-- The normalization every provider caller applies to the reply:
    `data....text?.trim().toUpperCase() ?? ''`. -/
def normalizeResponse (o : Option String) : String :=
  match o with
  | some t => strUpper (strTrim t)
  | none => ""

/-- The `callers` record lookup in `assessTaskCompletion`: only the three
    known provider names have a caller. -/
def knownCaller (p : String) : Bool :=
  p == "anthropic" || p == "openai" || p == "gemini"

/-- `context = recentTexts.join('\n---\n').slice(-3000)`: the tail-truncated
    assessment context. -/
def assessmentContext (recentTexts : List String) : String :=
  let joined := String.intercalate "\n---\n" recentTexts
  ⟨joined.data.drop (joined.data.length - 3000)⟩

/-- `ASSESSMENT_PROMPT` from smartContinue.ts (the fixed instruction text). -/
def ASSESSMENT_PROMPT : String :=
  "You are a task completion detector. Given the recent AI assistant output below, determine if the task is DONE or NOT_DONE.\n\nRules:\n- DONE = explicit completion summary, all steps finished, or user-facing final report\n- NOT_DONE = mid-step, partial work, no conclusion, or stopped abruptly\n\nRespond with exactly one word: DONE or NOT_DONE"

/-- The prompt `assessTaskCompletion` sends to the provider. -/
def buildAssessmentPrompt (recentTexts : List String) : String :=
  ASSESSMENT_PROMPT ++ "\n\n<recent_output>\n" ++ assessmentContext recentTexts
    ++ "\n</recent_output>"

/-- `assessTaskCompletion` from smartContinue.ts. The provider HTTP call is
    the oracle `call`, a function of the prompt sent; every thrown error is
    caught and becomes `false`, so the function is total. Returns `true`
    only for a normalized reply equal to `"DONE"`. -/
def assessTaskCompletion (recentTexts : List String) (config : SmartContinueConfig)
    (e : Env) (call : String → CallResult) : Bool :=
  match detectProvider config e with
  | none => false
  | some pc =>
    if ¬ knownCaller pc.provider then false
    else
      match call (buildAssessmentPrompt recentTexts) with
      | .failure => false
      | .success t => normalizeResponse t == "DONE"

/-- One file-system read in `loadCheckpointConfig`: the file is absent
    (`existsSync` false), the read throws, or it yields a string. -/
inductive FsRead where
  | missing
  | failure
  | ok (content : String)
  deriving Repr, DecidableEq

/-- The `config.smartContinue` object of a parsed `thread.json`: each field
    optional, exactly the fields the merge in `loadCheckpointConfig` reads
    (`sc.enabled ?? default`, ...). -/
structure SmartContinueFields where
  enabled : Option Bool
  model : Option String
  maxRetries : Option Nat
  bufferSize : Option Nat
  completionMarker : Option String
  timeoutMs : Option Nat
  continueMessage : Option String
  provider : Option String
  deriving Repr, DecidableEq

/-- A parsed `thread.json`, reduced to the one path the loader reads:
    `threadData?.config?.smartContinue`, `none` when that path is absent or
    falsy. -/
structure ThreadDoc where
  smartContinue : Option SmartContinueFields
  deriving Repr, DecidableEq

/-- The checkpoint store under `cwd/.checkpoints` as `loadCheckpointConfig`
    sees it: the `current` pointer file, the `threads/<id>/thread.json` file
    for each id, and the result of `JSON.parse` on a given file content
    (`none` = parse throws). -/
structure CheckpointFs where
  currentFile : FsRead
  threadJson : String → FsRead
  parse : String → Option ThreadDoc

/-- `loadCheckpointConfig` from smartContinue.ts. Any exception inside the
    `try` (a failing read, a failing parse) is caught and yields `none`; a
    missing pointer file or an empty pointer yields `none`; a present
    pointer whose thread document is missing or has no `smartContinue`
    section yields the full built-in default config. -/
def loadCheckpointConfig (fs : CheckpointFs) : Option SmartContinueConfig :=
  match fs.currentFile with
  | .missing => none
  | .failure => none
  | .ok raw =>
    let threadId := strTrim raw
    if threadId = "" then none
    else
      match fs.threadJson threadId with
      | .missing => some DEFAULT_SMART_CONTINUE
      | .failure => none
      | .ok content =>
        match fs.parse content with
        | none => none
        | some doc =>
          match doc.smartContinue with
          | none => some DEFAULT_SMART_CONTINUE
          | some sc =>
            some { enabled := sc.enabled.getD DEFAULT_SMART_CONTINUE.enabled
                   model := sc.model.getD DEFAULT_SMART_CONTINUE.model
                   maxRetries := sc.maxRetries.getD DEFAULT_SMART_CONTINUE.maxRetries
                   bufferSize := sc.bufferSize.getD DEFAULT_SMART_CONTINUE.bufferSize
                   completionMarker :=
                     sc.completionMarker.getD DEFAULT_SMART_CONTINUE.completionMarker
                   timeoutMs := sc.timeoutMs.getD DEFAULT_SMART_CONTINUE.timeoutMs
                   continueMessage :=
                     sc.continueMessage.getD DEFAULT_SMART_CONTINUE.continueMessage
                   provider := sc.provider }

/-- A content block of an SDK assistant message, reduced to what
    `extractAssistantText` inspects: `block.type === 'text'` blocks carry a
    (possibly empty, i.e. falsy) text, every other block kind is opaque. -/
inductive ContentBlock where
  | text (text : String)
  | otherBlock
  deriving Repr, DecidableEq

/-- A typed event of the transport stream, reduced to the fields
    claudeRemote.ts reads: assistant messages carry content blocks, result
    messages carry `subtype` and `num_turns`, everything else is opaque for
    the buffer logic. -/
inductive SDKMsg where
  | assistant (content : List ContentBlock)
  | result (subtype : String) (numTurns : Nat)
  | otherMsg
  deriving Repr, DecidableEq

/-- `extractAssistantText` from smartContinue.ts: joins the truthy `text`
    fields of the `text` blocks with a newline; `none` when there are no
    such blocks or the message is not an assistant message. -/
def extractAssistantText (m : SDKMsg) : Option String :=
  match m with
  | .assistant content =>
    let texts := content.filterMap fun b =>
      match b with
      | .text t => if jsTruthy t then some t else none
      | .otherBlock => none
    if texts.length > 0 then some (String.intercalate "\n" texts) else none
  | _ => none

/-- The buffer push in claudeRemote.ts:
    `recentAssistantTexts.push(t); if (length > bufferSize) shift()`. -/
def pushRecent (buf : List String) (bufferSize : Nat) (t : String) : List String :=
  let buf2 := buf ++ [t]
  if bufferSize < buf2.length then buf2.tail else buf2

/-- The per-event buffer update of the session driver:
    `if (assistantText && smartContinueConfig) { push / shift }`. -/
def bufferStep (cfg : Option SmartContinueConfig) (buf : List String) (m : SDKMsg) :
    List String :=
  match extractAssistantText m with
  | some t =>
    if jsTruthy t then
      match cfg with
      | some c => pushRecent buf c.bufferSize t
      | none => buf
    else buf
  | none => buf

/-- The rolling assistant-text buffer after the driver has processed a list
    of events, starting from the empty buffer. -/
def driveBuffer (cfg : Option SmartContinueConfig) (msgs : List SDKMsg) : List String :=
  msgs.foldl (bufferStep cfg) []

/-- `MAX_AUTO_CONTINUE` from claudeRemote.ts. -/
def MAX_AUTO_CONTINUE : Nat := 3

/-- The fixed structural continuation message pushed by the auto-continue
    gate in claudeRemote.ts. -/
def autoContinueMessage : String :=
  "Continue. You stopped before completing the task. Pick up where you left off."

/-- The mutable state of the continuation policy inside `claudeRemote`:
    the two counters, the rolling text buffer, and the compaction-command
    flag. -/
structure LoopState where
  autoContinueCount : Nat
  smartContinueCount : Nat
  recentAssistantTexts : List String
  isCompactCommand : Bool
  deriving Repr, DecidableEq

/-- What the driver does after a result event: push the fixed auto-continue
    message, push the configured smart-continue message, or fall through to
    turn completion (ready signal + next caller message). -/
inductive TurnAction where
  | autoContinue
  | smartContinue
  | complete
  deriving Repr, DecidableEq

/-- The observable outcome of handling one result event: the action taken,
    the updated policy state, the synthesized message pushed (if any), and
    whether `assessTaskCompletion` was invoked on this turn. -/
structure TurnOutcome where
  action : TurnAction
  state : LoopState
  pushedMessage : Option String
  assessorInvoked : Bool
  deriving Repr, DecidableEq

/-- The turn-complete fallthrough: clears the compaction flag (the
    `if (isCompactCommand) { ...; isCompactCommand = false }` block) and
    pushes no synthesized message. -/
def completeOutcome (st : LoopState) (invoked : Bool) : TurnOutcome :=
  { action := .complete
    state := { st with isCompactCommand := false }
    pushedMessage := none
    assessorInvoked := invoked }

/-- Gate 2 of the `message.type === 'result'` handler (the smart
    auto-continue block of claudeRemote.ts), evaluated on the state after
    the streak reset. `e` and `call` are the environment and network oracle
    threaded to `assessTaskCompletion`. -/
def handleResultGate2 (cfg : Option SmartContinueConfig) (e : Env)
    (call : String → CallResult) (st1 : LoopState)
    (subtype : String) (numTurns : Nat) : TurnOutcome :=
  match cfg with
  | some c =>
    if c.enabled = true ∧ st1.isCompactCommand = false ∧
        st1.smartContinueCount < c.maxRetries then
      let hasCompletionMarker :=
        st1.recentAssistantTexts.any fun t => strIncludes t c.completionMarker
      if hasCompletionMarker = false ∧ subtype = "success" ∧ 1 < numTurns then
        let isDone := assessTaskCompletion st1.recentAssistantTexts c e call
        if isDone = false then
          { action := .smartContinue
            state := { st1 with smartContinueCount := st1.smartContinueCount + 1 }
            pushedMessage := some c.continueMessage
            assessorInvoked := true }
        else completeOutcome st1 true
      else completeOutcome st1 false
    else completeOutcome st1 false
  | none => completeOutcome st1 false

/-- The `message.type === 'result'` handler of claudeRemote.ts: gate 1
    (structural auto-continue), the streak reset
    (`autoContinueCount = 0` on the path where gate 1 did not fire), gate 2,
    and the turn-complete fallthrough, in source order. -/
def handleResultMessage (cfg : Option SmartContinueConfig) (e : Env)
    (call : String → CallResult) (st : LoopState)
    (subtype : String) (numTurns : Nat) : TurnOutcome :=
  if subtype = "success" ∧ numTurns ≤ 1 ∧ st.isCompactCommand = false ∧
      st.autoContinueCount < MAX_AUTO_CONTINUE then
    { action := .autoContinue
      state := { st with autoContinueCount := st.autoContinueCount + 1 }
      pushedMessage := some autoContinueMessage
      assessorInvoked := false }
  else
    handleResultGate2 cfg e call { st with autoContinueCount := 0 } subtype numTurns

/-- How the event iteration of `claudeRemote` ends: the loop runs to
    completion (or an internal `return`), or the stream throws an
    `AbortError`, or it throws some other error. -/
inductive StreamExit where
  | finished
  | abortError
  | otherError (msg : String)
  deriving Repr, DecidableEq

/-- What the caller of `claudeRemote` observes at exit: the error re-raised
    (if any) and the thinking indicator after the `finally` block. -/
structure DriverExit where
  raised : Option String
  thinkingAfter : Bool
  deriving Repr, DecidableEq

/-- `updateThinking` from claudeRemote.ts, restricted to the state change:
    assigns the new value when it differs, keeps the old one otherwise. -/
def updateThinkingState (thinking newThinking : Bool) : Bool :=
  if thinking != newThinking then newThinking else thinking

/-- The `try/catch/finally` exit discipline of `claudeRemote`: an
    `AbortError` is swallowed, any other error is re-raised, and in every
    case the `finally` block forces the thinking indicator inactive.
    `thinking` is the indicator state when the iteration ended. -/
def claudeRemoteExit (thinking : Bool) (ex : StreamExit) : DriverExit :=
  let raised : Option String :=
    match ex with
    | .finished => none
    | .abortError => none
    | .otherError m => some m
  { raised := raised, thinkingAfter := updateThinkingState thinking false }

/-! Concrete instances used to evaluate the definitions on closed inputs. -/

/-- An environment with no credential set. -/
def envNone : Env :=
  { ANTHROPIC_AUTH_TOKEN := "", ANTHROPIC_API_KEY := "", ANTHROPIC_BASE_URL := ""
    OPENAI_API_KEY := "", OPENAI_BASE_URL := ""
    GEMINI_API_KEY := "", GOOGLE_API_KEY := "" }

/-- An environment where only the OpenAI credential is set. -/
def envOpenaiOnly : Env := { envNone with OPENAI_API_KEY := "sk-test" }

/-- An environment where only the Anthropic API key is set. -/
def envAnthropicOnly : Env := { envNone with ANTHROPIC_API_KEY := "ak-test" }

/-- A config that explicitly selects the anthropic provider and carries no
    model name. -/
def cfgExplicitAnthropic : SmartContinueConfig :=
  { DEFAULT_SMART_CONTINUE with provider := some "anthropic", model := "" }

/-- A config that explicitly selects the anthropic provider but carries an
    OpenAI-family model name. -/
def cfgAnthropicGptModel : SmartContinueConfig :=
  { DEFAULT_SMART_CONTINUE with provider := some "anthropic", model := "gpt-4o-mini" }

/-- The provider config `detectProvider` resolves for `cfgExplicitAnthropic`
    in `envOpenaiOnly`. -/
def pcOpenaiFallthrough : ProviderConfig :=
  { provider := "openai", apiKey := "sk-test"
    baseUrl := "https://api.openai.com", model := "gpt-4o-mini" }

/-- A network oracle whose every call fails. -/
def callFail : String → CallResult := fun _ => .failure

/-- A policy state whose buffer contains the default completion marker. -/
def stWithMarker : LoopState :=
  { autoContinueCount := 0, smartContinueCount := 0
    recentAssistantTexts := ["all done [CHECKPOINT_COMPLETE] bye"]
    isCompactCommand := false }

/-- A checkpoint store whose pointer file holds an id (with whitespace) and
    whose thread document is missing. -/
def fsPtrOnly : CheckpointFs :=
  { currentFile := .ok " tid1 \n"
    threadJson := fun _ => .missing
    parse := fun _ => none }

/-! ## Helper lemmas -/

theorem jsTruthy_eq_true_iff (a : String) : jsTruthy a = true ↔ a ≠ "" := by
  simp [jsTruthy]

theorem handleResultGate2_action_ne_auto (cfg : Option SmartContinueConfig) (e : Env)
    (call : String → CallResult) (st1 : LoopState) (subtype : String) (numTurns : Nat) :
    (handleResultGate2 cfg e call st1 subtype numTurns).action ≠ TurnAction.autoContinue := by
  cases cfg with
  | none => simp [handleResultGate2, completeOutcome]
  | some c =>
    simp only [handleResultGate2]
    split_ifs <;> simp [completeOutcome]

theorem handleResultGate2_autoCount (cfg : Option SmartContinueConfig) (e : Env)
    (call : String → CallResult) (st1 : LoopState) (subtype : String) (numTurns : Nat) :
    (handleResultGate2 cfg e call st1 subtype numTurns).state.autoContinueCount
      = st1.autoContinueCount := by
  cases cfg with
  | none => simp [handleResultGate2, completeOutcome]
  | some c =>
    simp only [handleResultGate2]
    split_ifs <;> simp [completeOutcome]

/-! ## Claim theorems -/

/-- C1: the structural auto-continue gate fires exactly when the result
    subtype is `success`, the turn count is at most 1, the session is not
    processing a compaction command, and the auto-continue streak counter is
    strictly below `MAX_AUTO_CONTINUE = 3`; when it fires it increments the
    streak by one, pushes the fixed continuation message, leaves the rest of
    the state (in particular the smart-continue counter) unchanged, does not
    invoke the assessor, and does not fall through to turn completion. -/
theorem autoContinue_gate_spec (cfg : Option SmartContinueConfig) (e : Env)
    (call : String → CallResult) (st : LoopState) (subtype : String) (numTurns : Nat) :
    MAX_AUTO_CONTINUE = 3
    ∧ ((subtype = "success" ∧ numTurns ≤ 1 ∧ st.isCompactCommand = false ∧
          st.autoContinueCount < MAX_AUTO_CONTINUE) ↔
        (handleResultMessage cfg e call st subtype numTurns).action
          = TurnAction.autoContinue)
    ∧ ((handleResultMessage cfg e call st subtype numTurns).action
          = TurnAction.autoContinue →
        handleResultMessage cfg e call st subtype numTurns =
          { action := TurnAction.autoContinue
            state := { st with autoContinueCount := st.autoContinueCount + 1 }
            pushedMessage := some autoContinueMessage
            assessorInvoked := false }) := by
  by_cases h : subtype = "success" ∧ numTurns ≤ 1 ∧ st.isCompactCommand = false ∧
      st.autoContinueCount < MAX_AUTO_CONTINUE
  · rw [handleResultMessage, if_pos h]
    exact ⟨rfl, ⟨fun _ => rfl, fun _ => h⟩, fun _ => rfl⟩
  · rw [handleResultMessage, if_neg h]
    exact ⟨rfl,
      ⟨fun hfire => absurd hfire h,
       fun ha => absurd ha
         (handleResultGate2_action_ne_auto cfg e call _ subtype numTurns)⟩,
      fun ha => absurd ha
        (handleResultGate2_action_ne_auto cfg e call _ subtype numTurns)⟩

/-- C2: on every turn result where the auto-continue gate does not fire the
    streak counter is reset to zero — in particular whenever the turn count
    exceeds 1 — and on every turn result the counter either increments by
    one or becomes zero (it never changes in any other way). -/
theorem autoContinue_streak_reset (cfg : Option SmartContinueConfig) (e : Env)
    (call : String → CallResult) (st : LoopState) (subtype : String) (numTurns : Nat) :
    (¬(subtype = "success" ∧ numTurns ≤ 1 ∧ st.isCompactCommand = false ∧
          st.autoContinueCount < MAX_AUTO_CONTINUE) →
        (handleResultMessage cfg e call st subtype numTurns).state.autoContinueCount = 0)
    ∧ (1 < numTurns →
        (handleResultMessage cfg e call st subtype numTurns).state.autoContinueCount = 0)
    ∧ ((handleResultMessage cfg e call st subtype numTurns).state.autoContinueCount
          = st.autoContinueCount + 1
       ∨ (handleResultMessage cfg e call st subtype numTurns).state.autoContinueCount
          = 0) := by
  by_cases h : subtype = "success" ∧ numTurns ≤ 1 ∧ st.isCompactCommand = false ∧
      st.autoContinueCount < MAX_AUTO_CONTINUE
  · rw [handleResultMessage, if_pos h]
    exact ⟨fun hn => absurd h hn,
      fun h2 => absurd h2 (Nat.not_lt.mpr h.2.1),
      Or.inl rfl⟩
  · rw [handleResultMessage, if_neg h]
    have h0 := handleResultGate2_autoCount cfg e call
      { st with autoContinueCount := 0 } subtype numTurns
    exact ⟨fun _ => h0, fun _ => h0, Or.inr h0⟩

/-- C3: on a turn result that reaches the smart-continue gate (gate 1 did
    not fire), if some entry of the rolling assistant-text buffer contains
    the configured completion marker as a substring, then
    `assessTaskCompletion` is not invoked and the turn falls through to
    completion. -/
theorem marker_skips_assessor (c : SmartContinueConfig) (e : Env)
    (call : String → CallResult) (st : LoopState) (subtype : String) (numTurns : Nat)
    (hgate1 : ¬(subtype = "success" ∧ numTurns ≤ 1 ∧ st.isCompactCommand = false ∧
        st.autoContinueCount < MAX_AUTO_CONTINUE))
    (hmarker : (st.recentAssistantTexts.any fun t =>
        strIncludes t c.completionMarker) = true) :
    (handleResultMessage (some c) e call st subtype numTurns).assessorInvoked = false
    ∧ (handleResultMessage (some c) e call st subtype numTurns).action
        = TurnAction.complete := by
  rw [handleResultMessage, if_neg hgate1]
  simp only [handleResultGate2]
  split_ifs with hA hB hC
  · rw [show ({ st with autoContinueCount := 0 } : LoopState).recentAssistantTexts
        = st.recentAssistantTexts from rfl, hmarker] at hB
    exact absurd hB.1 (by simp)
  · rw [show ({ st with autoContinueCount := 0 } : LoopState).recentAssistantTexts
        = st.recentAssistantTexts from rfl, hmarker] at hB
    exact absurd hB.1 (by simp)
  · exact ⟨rfl, rfl⟩
  · exact ⟨rfl, rfl⟩

/-- Witness for C3 at a concrete input: default config, a buffer entry
    containing `[CHECKPOINT_COMPLETE]`, a successful result with 5 turns. -/
theorem marker_skips_assessor_witness :
    (handleResultMessage (some DEFAULT_SMART_CONTINUE) envNone callFail
        stWithMarker "success" 5).assessorInvoked = false
    ∧ (handleResultMessage (some DEFAULT_SMART_CONTINUE) envNone callFail
        stWithMarker "success" 5).action = TurnAction.complete :=
  marker_skips_assessor DEFAULT_SMART_CONTINUE envNone callFail stWithMarker "success" 5
    (by decide) (by decide)

theorem autoDetect_eq_none_iff (c : SmartContinueConfig) (e : Env) :
    autoDetect c e = none ↔
      anthropicKeyOf e = "" ∧ openaiKeyOf e = "" ∧ geminiKeyOf e = "" := by
  rw [autoDetect]
  split_ifs with h1 h2 h3 <;> simp_all [jsTruthy_eq_true_iff]

theorem detectProvider_eq_none_iff (c : SmartContinueConfig) (e : Env) :
    detectProvider c e = none ↔
      anthropicKeyOf e = "" ∧ openaiKeyOf e = "" ∧ geminiKeyOf e = "" := by
  rw [detectProvider]
  split_ifs with h1 h2 h3
  · simp_all [jsTruthy_eq_true_iff]
  · simp_all [jsTruthy_eq_true_iff]
  · simp_all [jsTruthy_eq_true_iff]
  · exact autoDetect_eq_none_iff c e

/-- C4 counterexample: with `provider` explicitly `"anthropic"`, no
    anthropic credential, and an OpenAI credential present,
    `detectProvider` resolves to the openai provider instead of
    returning null. -/
theorem detectProvider_explicit_null_cex :
    cfgExplicitAnthropic.provider = some "anthropic"
    ∧ anthropicKeyOf envOpenaiOnly = ""
    ∧ detectProvider cfgExplicitAnthropic envOpenaiOnly = some pcOpenaiFallthrough
    ∧ pcOpenaiFallthrough.provider = "openai" := by decide

/-- C4 amended: each of the three explicitly settable providers is used
    (with its credential) when that credential is present; when it is absent, `detectProvider`
    falls through to environment auto-detection (anthropic, then openai,
    then gemini) and may resolve to a different provider; it returns null
    exactly when no provider credential is present at all. -/
theorem detectProvider_explicit_fallthrough (c : SmartContinueConfig) (e : Env) :
    ((c.provider = some "anthropic" ∧ jsTruthy (anthropicKeyOf e) = true) →
        detectProvider c e = some
          { provider := "anthropic", apiKey := anthropicKeyOf e
            baseUrl := jsOr e.ANTHROPIC_BASE_URL "https://api.anthropic.com"
            model := jsOr c.model (DEFAULT_MODELS "anthropic") })
    ∧ ((c.provider = some "openai" ∧ jsTruthy (openaiKeyOf e) = true) →
        detectProvider c e = some
          { provider := "openai", apiKey := openaiKeyOf e
            baseUrl := jsOr e.OPENAI_BASE_URL "https://api.openai.com"
            model := jsOr c.model (DEFAULT_MODELS "openai") })
    ∧ ((c.provider = some "gemini" ∧ jsTruthy (geminiKeyOf e) = true) →
        detectProvider c e = some
          { provider := "gemini", apiKey := geminiKeyOf e
            baseUrl := "https://generativelanguage.googleapis.com"
            model := jsOr c.model (DEFAULT_MODELS "gemini") })
    ∧ ((c.provider = some "anthropic" ∧ anthropicKeyOf e = "") →
        detectProvider c e = autoDetect c e)
    ∧ ((c.provider = some "openai" ∧ openaiKeyOf e = "") →
        detectProvider c e = autoDetect c e)
    ∧ ((c.provider = some "gemini" ∧ geminiKeyOf e = "") →
        detectProvider c e = autoDetect c e)
    ∧ (detectProvider c e = none ↔
        anthropicKeyOf e = "" ∧ openaiKeyOf e = "" ∧ geminiKeyOf e = "") := by
  refine ⟨?_, ?_, ?_, ?_, ?_, ?_, detectProvider_eq_none_iff c e⟩
  · rintro ⟨hp, hk⟩
    rw [detectProvider, if_pos ⟨hp, hk⟩]
  · rintro ⟨hp, hk⟩
    have hn1 : ¬(c.provider = some "anthropic" ∧ jsTruthy (anthropicKeyOf e) = true) := by
      rintro ⟨h2, -⟩; rw [hp] at h2; exact absurd (Option.some.inj h2) (by decide)
    rw [detectProvider, if_neg hn1, if_pos ⟨hp, hk⟩]
  · rintro ⟨hp, hk⟩
    have hn1 : ¬(c.provider = some "anthropic" ∧ jsTruthy (anthropicKeyOf e) = true) := by
      rintro ⟨h2, -⟩; rw [hp] at h2; exact absurd (Option.some.inj h2) (by decide)
    have hn2 : ¬(c.provider = some "openai" ∧ jsTruthy (openaiKeyOf e) = true) := by
      rintro ⟨h2, -⟩; rw [hp] at h2; exact absurd (Option.some.inj h2) (by decide)
    rw [detectProvider, if_neg hn1, if_neg hn2, if_pos ⟨hp, hk⟩]
  · rintro ⟨hp, hk⟩
    have hn1 : ¬(c.provider = some "anthropic" ∧ jsTruthy (anthropicKeyOf e) = true) := by
      rintro ⟨-, ht⟩; rw [hk] at ht; exact absurd ht (by decide)
    have hn2 : ¬(c.provider = some "openai" ∧ jsTruthy (openaiKeyOf e) = true) := by
      rintro ⟨h2, -⟩; rw [hp] at h2; exact absurd (Option.some.inj h2) (by decide)
    have hn3 : ¬(c.provider = some "gemini" ∧ jsTruthy (geminiKeyOf e) = true) := by
      rintro ⟨h2, -⟩; rw [hp] at h2; exact absurd (Option.some.inj h2) (by decide)
    rw [detectProvider, if_neg hn1, if_neg hn2, if_neg hn3]
  · rintro ⟨hp, hk⟩
    have hn1 : ¬(c.provider = some "anthropic" ∧ jsTruthy (anthropicKeyOf e) = true) := by
      rintro ⟨h2, -⟩; rw [hp] at h2; exact absurd (Option.some.inj h2) (by decide)
    have hn2 : ¬(c.provider = some "openai" ∧ jsTruthy (openaiKeyOf e) = true) := by
      rintro ⟨-, ht⟩; rw [hk] at ht; exact absurd ht (by decide)
    have hn3 : ¬(c.provider = some "gemini" ∧ jsTruthy (geminiKeyOf e) = true) := by
      rintro ⟨h2, -⟩; rw [hp] at h2; exact absurd (Option.some.inj h2) (by decide)
    rw [detectProvider, if_neg hn1, if_neg hn2, if_neg hn3]
  · rintro ⟨hp, hk⟩
    have hn1 : ¬(c.provider = some "anthropic" ∧ jsTruthy (anthropicKeyOf e) = true) := by
      rintro ⟨h2, -⟩; rw [hp] at h2; exact absurd (Option.some.inj h2) (by decide)
    have hn2 : ¬(c.provider = some "openai" ∧ jsTruthy (openaiKeyOf e) = true) := by
      rintro ⟨h2, -⟩; rw [hp] at h2; exact absurd (Option.some.inj h2) (by decide)
    have hn3 : ¬(c.provider = some "gemini" ∧ jsTruthy (geminiKeyOf e) = true) := by
      rintro ⟨-, ht⟩; rw [hk] at ht; exact absurd ht (by decide)
    rw [detectProvider, if_neg hn1, if_neg hn2, if_neg hn3]

/-- C5 counterexample: with `provider` explicitly `"anthropic"`, the
    anthropic credential present and `model = "gpt-4o-mini"`, the resolved
    model is `"gpt-4o-mini"` itself — not the anthropic default — although
    it does not carry the `claude` name-prefix of the chosen provider. -/
theorem detectProvider_model_convention_cex :
    detectProvider cfgAnthropicGptModel envAnthropicOnly
      = some { provider := "anthropic", apiKey := "ak-test"
               baseUrl := "https://api.anthropic.com", model := "gpt-4o-mini" }
    ∧ strStarts cfgAnthropicGptModel.model "claude" = false
    ∧ cfgAnthropicGptModel.model ≠ DEFAULT_MODELS "anthropic" := by decide

/-- C5 amended: the name-prefix convention governs the model only on the
    auto-detect path; on the explicit-provider path the config's model is
    honored whenever it is non-empty (`config.model || default`), with the
    provider default substituted only for an empty model name. -/
theorem detectProvider_model_policy (c : SmartContinueConfig) (e : Env)
    (pc : ProviderConfig) (h : detectProvider c e = some pc) :
    (c.provider = some pc.provider →
        pc.model = jsOr c.model (DEFAULT_MODELS pc.provider))
    ∧ (c.provider ≠ some pc.provider →
        pc.model = if strStarts c.model (modelFamilyOf pc.provider) = true
          then c.model else DEFAULT_MODELS pc.provider) := by
  rw [detectProvider] at h
  split_ifs at h with h1 h2 h3
  · cases Option.some.inj h
    exact ⟨fun _ => rfl, fun hne => absurd h1.1 hne⟩
  · cases Option.some.inj h
    exact ⟨fun _ => rfl, fun hne => absurd h2.1 hne⟩
  · cases Option.some.inj h
    exact ⟨fun _ => rfl, fun hne => absurd h3.1 hne⟩
  · rw [autoDetect] at h
    by_cases g1 : jsTruthy (anthropicKeyOf e) = true
    · rw [if_pos g1] at h
      cases Option.some.inj h
      exact ⟨fun hp => absurd ⟨hp, g1⟩ h1, fun _ => rfl⟩
    · rw [if_neg g1] at h
      by_cases g2 : jsTruthy (openaiKeyOf e) = true
      · rw [if_pos g2] at h
        cases Option.some.inj h
        exact ⟨fun hp => absurd ⟨hp, g2⟩ h2, fun _ => rfl⟩
      · rw [if_neg g2] at h
        by_cases g3 : jsTruthy (geminiKeyOf e) = true
        · rw [if_pos g3] at h
          cases Option.some.inj h
          exact ⟨fun hp => absurd ⟨hp, g3⟩ h3, fun _ => rfl⟩
        · rw [if_neg g3] at h
          exact absurd h (by simp)

/-- Witness for the amended C5 theorem at a concrete input: explicit
    anthropic provider without credentials falls through to openai, and the
    resolved model follows the auto-detect prefix rule. -/
theorem detectProvider_model_policy_witness :
    (cfgExplicitAnthropic.provider = some pcOpenaiFallthrough.provider →
        pcOpenaiFallthrough.model
          = jsOr cfgExplicitAnthropic.model (DEFAULT_MODELS pcOpenaiFallthrough.provider))
    ∧ (cfgExplicitAnthropic.provider ≠ some pcOpenaiFallthrough.provider →
        pcOpenaiFallthrough.model
          = if strStarts cfgExplicitAnthropic.model (modelFamilyOf pcOpenaiFallthrough.provider) = true
            then cfgExplicitAnthropic.model
            else DEFAULT_MODELS pcOpenaiFallthrough.provider) :=
  detectProvider_model_policy cfgExplicitAnthropic envOpenaiOnly pcOpenaiFallthrough
    (by decide)

theorem detectProvider_provider_known (c : SmartContinueConfig) (e : Env)
    (pc : ProviderConfig) (h : detectProvider c e = some pc) :
    knownCaller pc.provider = true := by
  rw [detectProvider] at h
  split_ifs at h with h1 h2 h3
  · cases Option.some.inj h
    exact show knownCaller "anthropic" = true by decide
  · cases Option.some.inj h
    exact show knownCaller "openai" = true by decide
  · cases Option.some.inj h
    exact show knownCaller "gemini" = true by decide
  · rw [autoDetect] at h
    by_cases g1 : jsTruthy (anthropicKeyOf e) = true
    · rw [if_pos g1] at h; cases Option.some.inj h
      exact show knownCaller "anthropic" = true by decide
    · rw [if_neg g1] at h
      by_cases g2 : jsTruthy (openaiKeyOf e) = true
      · rw [if_pos g2] at h; cases Option.some.inj h
        exact show knownCaller "openai" = true by decide
      · rw [if_neg g2] at h
        by_cases g3 : jsTruthy (geminiKeyOf e) = true
        · rw [if_pos g3] at h; cases Option.some.inj h
          exact show knownCaller "gemini" = true by decide
        · rw [if_neg g3] at h; exact absurd h (by simp)

/-- C6: `assessTaskCompletion` returns `true` exactly when a provider
    resolves and the provider call succeeds with a trimmed, upper-cased
    response equal to `"DONE"`; in every other case — no provider, a thrown
    call (timeout, HTTP error, fetch failure), a missing text field, or any
    other normalized response — it returns `false` (it is a total function:
    no exception escapes). -/
theorem assessTaskCompletion_done_iff (texts : List String) (c : SmartContinueConfig)
    (e : Env) (call : String → CallResult) :
    (assessTaskCompletion texts c e call = true ↔
      (∃ pc, detectProvider c e = some pc)
      ∧ (∃ t, call (buildAssessmentPrompt texts) = CallResult.success t
           ∧ normalizeResponse t = "DONE"))
    ∧ (detectProvider c e = none → assessTaskCompletion texts c e call = false) := by
  cases hd : detectProvider c e with
  | none =>
    constructor
    · simp [assessTaskCompletion, hd]
    · intro _; simp [assessTaskCompletion, hd]
  | some pc =>
    have hk : knownCaller pc.provider = true := detectProvider_provider_known c e pc hd
    constructor
    · cases hc : call (buildAssessmentPrompt texts) with
      | failure => simp [assessTaskCompletion, hd, hk, hc]
      | success t => simp [assessTaskCompletion, hd, hk, hc]
    · intro hn; cases hn

theorem pushRecent_length_le (buf : List String) (n : Nat) (t : String)
    (h : buf.length ≤ n) : (pushRecent buf n t).length ≤ n := by
  rw [pushRecent]
  split_ifs with hlt
  · simp only [List.length_tail, List.length_append, List.length_singleton]
    omega
  · simp only [List.length_append, List.length_singleton] at hlt ⊢
    omega

theorem bufferStep_length_le (c : SmartContinueConfig) (buf : List String) (m : SDKMsg)
    (h : buf.length ≤ c.bufferSize) :
    (bufferStep (some c) buf m).length ≤ c.bufferSize := by
  cases hx : extractAssistantText m with
  | none => simpa [bufferStep, hx] using h
  | some t =>
    by_cases ht : jsTruthy t = true
    · simpa [bufferStep, hx, ht] using pushRecent_length_le buf c.bufferSize t h
    · simpa [bufferStep, hx, ht] using h

theorem foldl_bufferStep_length_le (c : SmartContinueConfig) (msgs : List SDKMsg) :
    ∀ buf : List String, buf.length ≤ c.bufferSize →
      (msgs.foldl (bufferStep (some c)) buf).length ≤ c.bufferSize := by
  induction msgs with
  | nil => intro buf h; simpa using h
  | cons m ms ih =>
    intro buf h
    rw [List.foldl_cons]
    exact ih _ (bufferStep_length_le c buf m h)

/-- C7: after any sequence of events processed by the session driver the
    rolling assistant-text buffer holds at most `bufferSize` entries, and a
    push onto a full buffer drops exactly the oldest entry, appending the new
    one at the back (FIFO, order of the remaining entries preserved). -/
theorem recentTexts_bounded_fifo :
    (∀ (c : SmartContinueConfig) (msgs : List SDKMsg),
        (driveBuffer (some c) msgs).length ≤ c.bufferSize)
    ∧ (∀ (buf : List String) (n : Nat) (t : String),
        buf.length = n → pushRecent buf n t = (buf ++ [t]).tail)
    ∧ (∀ (buf : List String) (n : Nat) (t : String),
        buf.length = n → buf ≠ [] → pushRecent buf n t = buf.tail ++ [t]) := by
  refine ⟨?_, ?_, ?_⟩
  · intro c msgs
    exact foldl_bufferStep_length_le c msgs [] (by simp)
  · intro buf n t hlen
    rw [pushRecent, if_pos]
    simp [← hlen]
  · intro buf n t hlen hne
    rw [pushRecent, if_pos]
    · cases buf with
      | nil => exact absurd rfl hne
      | cons a rest => simp
    · simp [← hlen]

/-- Witness for C7's FIFO clause at a full five-entry buffer with the
    default buffer size. -/
theorem recentTexts_bounded_fifo_witness :
    pushRecent ["a", "b", "c", "d", "e"] DEFAULT_SMART_CONTINUE.bufferSize "f"
      = ["a", "b", "c", "d", "e"].tail ++ ["f"] :=
  recentTexts_bounded_fifo.2.2 ["a", "b", "c", "d", "e"]
    DEFAULT_SMART_CONTINUE.bufferSize "f" (by decide) (by decide)

/-- C8: when the event iteration ends with the designated cancellation
    error (`AbortError`) the driver returns without raising; any other
    stream error is re-raised to the caller; a normal end raises nothing;
    and in all three cases the thinking indicator is inactive after the
    `finally` block. -/
theorem claudeRemoteExit_spec (thinking : Bool) :
    (claudeRemoteExit thinking StreamExit.abortError).raised = none
    ∧ (claudeRemoteExit thinking StreamExit.finished).raised = none
    ∧ (∀ m, (claudeRemoteExit thinking (StreamExit.otherError m)).raised = some m)
    ∧ (∀ ex, (claudeRemoteExit thinking ex).thinkingAfter = false) := by
  refine ⟨rfl, rfl, fun m => rfl, fun ex => ?_⟩
  cases thinking <;> rfl

/-- C9: `detectProvider` is deterministic — two calls with the same config
    and the same environment return identical results. -/
theorem detectProvider_deterministic (c : SmartContinueConfig) (e : Env) :
    detectProvider c e = detectProvider c e := rfl

/-- C10: when the pointer file holds a non-empty checkpoint id,
    `loadCheckpointConfig` returns the full built-in default configuration
    (`enabled = true`, `maxRetries = 2`, `bufferSize = 5`, marker
    `"[CHECKPOINT_COMPLETE]"`) both when the thread document is missing and
    when it parses without a `smartContinue` section, while a failing read
    of either file or a failing parse yields `none`. -/
theorem loadCheckpointConfig_defaults (fs : CheckpointFs) (raw : String)
    (hc : fs.currentFile = FsRead.ok raw) (hne : ¬ strTrim raw = "") :
    (fs.threadJson (strTrim raw) = FsRead.missing →
        loadCheckpointConfig fs = some DEFAULT_SMART_CONTINUE)
    ∧ (∀ content doc, fs.threadJson (strTrim raw) = FsRead.ok content →
        fs.parse content = some doc → doc.smartContinue = none →
        loadCheckpointConfig fs = some DEFAULT_SMART_CONTINUE)
    ∧ (fs.threadJson (strTrim raw) = FsRead.failure → loadCheckpointConfig fs = none)
    ∧ (∀ content, fs.threadJson (strTrim raw) = FsRead.ok content →
        fs.parse content = none → loadCheckpointConfig fs = none)
    ∧ (∀ fs2 : CheckpointFs, fs2.currentFile = FsRead.failure →
        loadCheckpointConfig fs2 = none)
    ∧ (DEFAULT_SMART_CONTINUE.enabled = true ∧ DEFAULT_SMART_CONTINUE.maxRetries = 2
       ∧ DEFAULT_SMART_CONTINUE.bufferSize = 5
       ∧ DEFAULT_SMART_CONTINUE.completionMarker = "[CHECKPOINT_COMPLETE]") := by
  refine ⟨?_, ?_, ?_, ?_, ?_, by decide⟩
  · intro h1
    simp [loadCheckpointConfig, hc, hne, h1]
  · intro content doc h1 h2 h3
    simp [loadCheckpointConfig, hc, hne, h1, h2, h3]
  · intro h1
    simp [loadCheckpointConfig, hc, hne, h1]
  · intro content h1 h2
    simp [loadCheckpointConfig, hc, hne, h1, h2]
  · intro fs2 h2
    simp [loadCheckpointConfig, h2]

/-- Witness for C10 at a concrete store: pointer `" tid1 \n"`, thread
    document missing. -/
theorem loadCheckpointConfig_defaults_witness :
    loadCheckpointConfig fsPtrOnly = some DEFAULT_SMART_CONTINUE :=
  (loadCheckpointConfig_defaults fsPtrOnly " tid1 \n" rfl (by decide)).1 rfl

end Hapi
